import Mathlib

set_option autoImplicit false

/-- Token payload returned by the identity provider code exchange
(`oauth2Client.getToken(code)` in `googleCallback`): JavaScript fields
`access_token`, `refresh_token` (possibly absent on non-first consent) and
`expiry_date` (possibly absent). -/
structure Tokens where
  access_token : String
  refresh_token : Option String
  expiry_date : Option Int
  deriving DecidableEq

/-- Profile data returned by `oauth2.userinfo.get()`: fields `id`, `email`,
`name`, `picture`. -/
structure Profile where
  id : String
  email : String
  name : String
  picture : String
  deriving DecidableEq

/-- Mongo `User` document as constructed in `googleCallback`. `id` models the
mongo `_id`. -/
structure User where
  id : Nat
  googleId : String
  email : String
  name : String
  picture : String
  accessToken : String
  refreshToken : Option String
  tokenExpiry : Option Int
  deriving DecidableEq

/-- Persistent user collection. -/
abbrev DB := List User

/-- JavaScript truthiness of a possibly-absent string field (`undefined` and
the empty string are falsy). -/
def truthyStr : Option String → Bool
  | none => false
  | some s => !(s == "")

/-- JavaScript truthiness of a possibly-absent numeric field (`undefined` and
`0` are falsy). -/
def truthyInt : Option Int → Bool
  | none => false
  | some n => !(n == 0)

/-- Mongo query `User.findOne({ googleId })`: first stored document whose
`googleId` field equals the given value. -/
def findOneByGoogleId (db : DB) (gid : String) : Option User :=
  db.find? (fun u => u.googleId == gid)

/-- Mongo query `User.findById(userId)`. -/
def findById (db : DB) (userId : Nat) : Option User :=
  db.find? (fun u => u.id == userId)

/-- Mongo query `User.findOne({ refreshToken })` with a string value: first
stored document whose `refreshToken` field equals that string. -/
def findOneByRefreshToken (db : DB) (rt : String) : Option User :=
  db.find? (fun u => u.refreshToken == some rt)

/-- Mongoose `document.save()`: a document whose `_id` already occurs in the
collection replaces every stored document carrying that `_id` (mongo keeps
`_id` unique, so at most one); a document with a new `_id` is inserted. -/
def saveUser (db : DB) (u : User) : DB :=
  if db.any (fun v => v.id == u.id) then
    db.map (fun v => if v.id == u.id then u else v)
  else
    db ++ [u]

/-- Success path of `exports.googleCallback` after the code exchange yielded
`tokens` and the profile fetch yielded `data`: find-or-create by
`googleId`, then `user.save()`. `freshId` models the mongo `_id` generated
for a newly constructed document. The update branch assigns `accessToken`
unconditionally, `refreshToken` only when `tokens.refresh_token` is truthy,
and `tokenExpiry` as `tokens.expiry_date ? new Date(...) : null`; it never
touches `email`, `name` or `picture`. -/
def googleCallback (db : DB) (freshId : Nat) (tokens : Tokens) (data : Profile) : DB :=
  match findOneByGoogleId db data.id with
  | none =>
      saveUser db
        { id := freshId
          googleId := data.id
          email := data.email
          name := data.name
          picture := data.picture
          accessToken := tokens.access_token
          refreshToken := tokens.refresh_token
          tokenExpiry := if truthyInt tokens.expiry_date then tokens.expiry_date else none }
  | some user =>
      saveUser db
        { user with
          accessToken := tokens.access_token
          refreshToken :=
            if truthyStr tokens.refresh_token then tokens.refresh_token else user.refreshToken
          tokenExpiry := if truthyInt tokens.expiry_date then tokens.expiry_date else none }

/-- Credential payload returned by `oauth2Client.refreshAccessToken()`. -/
structure Credentials where
  access_token : String
  expiry_date : Option Int
  deriving DecidableEq

/-- HTTP outcome of the `exports.refreshToken` handler. `badRequest` is the
`res.status(400).json(...)` reply (the spec taxonomy's `ValidationError`);
`externalAuthError` is a provider rejection forwarded to the error boundary
by `next(error)` (the spec taxonomy's `ExternalAuthError`); `ok` is the
`res.json({accessToken, expiryDate})` success reply. -/
inductive RefreshResponse where
  | badRequest (message : String)
  | externalAuthError (message : String)
  | ok (accessToken : String) (expiryDate : Option Int)
  deriving DecidableEq

/-- Observable effect of one `exports.refreshToken` request: the HTTP
response, the persistent collection after the handler, whether the external
endpoint (`oauth2Client.refreshAccessToken`) was invoked, and the in-memory
mongoose document as mutated by the handler. -/
structure RefreshOutcome where
  response : RefreshResponse
  db : DB
  providerCalled : Bool
  inMemoryDoc : Option User
  deriving DecidableEq

/-- Handler `exports.refreshToken`: replies 400 when the request body's
`refreshToken` field is falsy (before any external call); otherwise calls
the provider's refresh endpoint, forwarding a rejection to `next(error)`.
On provider success it finds the user by stored `refreshToken` and assigns
`accessToken`/`tokenExpiry` on the fetched document, but the source never
calls `user.save()`, so the persistent collection is returned unchanged on
every path; the assignments live only on the in-memory document. -/
def refreshToken (providerRefresh : String → Except String Credentials)
    (db : DB) (bodyRefreshToken : Option String) : RefreshOutcome :=
  if !truthyStr bodyRefreshToken then
    { response := .badRequest "Refresh token missing."
      db := db
      providerCalled := false
      inMemoryDoc := none }
  else
    match providerRefresh (bodyRefreshToken.getD "") with
    | .error e =>
        { response := .externalAuthError e
          db := db
          providerCalled := true
          inMemoryDoc := none }
    | .ok credentials =>
        { response := .ok credentials.access_token credentials.expiry_date
          db := db
          providerCalled := true
          inMemoryDoc :=
            (findOneByRefreshToken db (bodyRefreshToken.getD "")).map (fun u =>
              { u with
                accessToken := credentials.access_token
                tokenExpiry := credentials.expiry_date }) }

/-- Credential object installed on the shared `oauth2Client` by
`setUserCredentials` via `oauth2Client.setCredentials`: only `access_token`
and `refresh_token` are supplied; no `expiry_date` is installed. -/
structure OAuthClientCredentials where
  access_token : Option String
  refresh_token : Option String
  expiry_date : Option Int
  deriving DecidableEq

/-- Helper `setUserCredentials(userId)` of the sheets controller: loads the
user and installs its stored tokens on the shared client, throwing
`'User not found'` when the lookup fails. The stored `tokenExpiry` is never
read and no refresh of any kind is performed. Returns the installed
credentials together with the fetched user. -/
def setUserCredentials (db : DB) (userId : Nat) :
    Except String (OAuthClientCredentials × User) :=
  match findById db userId with
  | none => .error "User not found"
  | some user =>
      .ok ({ access_token := some user.accessToken
             refresh_token := user.refreshToken
             expiry_date := none }, user)

/-- Behaviour of the external googleapis client on an outbound API request,
modelled from its documented contract (the client library is not part of
this repository): a pre-call token refresh is attempted exactly when the
installed credentials carry an `expiry_date` at or before `now`; otherwise
the installed `access_token` is sent as-is. Returns the bearer token used
for the call (`none` on the refresh path, where a freshly minted token not
modelled here would be used) and whether a refresh was attempted. -/
def clientRequestAction (c : OAuthClientCredentials) (now : Int) :
    Option String × Bool :=
  match c.expiry_date with
  | some e => if e ≤ now then (none, true) else (c.access_token, false)
  | none => (c.access_token, false)

/-- Sort specification entry sent in the `sortRange` batchUpdate request. -/
structure SortSpec where
  dimensionIndex : Int
  sortOrder : String
  deriving DecidableEq

/-- Range and sort specification built by `sortSheetRange` for the
`sortRange` batchUpdate request. The code passes `sheetName` in the request
`sheetId` slot and hard-codes `startRowIndex` and `startColumnIndex`. -/
structure SortRangeRequest where
  sheetId : String
  startRowIndex : Int
  startColumnIndex : Int
  endColumnIndex : Int
  sortSpecs : List SortSpec
  deriving DecidableEq

/-- Request construction in handler `sortSheetRange`: the order field is
normalized by `order === 'DESCENDING' ? 'DESCENDING' : 'ASCENDING'`. -/
def sortSheetRange (sheetName : String) (sortColumnIndex : Int)
    (order : Option String) : SortRangeRequest :=
  let sortOrder := if order = some "DESCENDING" then "DESCENDING" else "ASCENDING"
  { sheetId := sheetName
    startRowIndex := 1
    startColumnIndex := 0
    endColumnIndex := sortColumnIndex + 1
    sortSpecs := [{ dimensionIndex := sortColumnIndex, sortOrder := sortOrder }] }

/-- Sheet metadata entry (`sheet.properties`) of a spreadsheet, as consumed
by `deleteSheet`. -/
structure SheetProperties where
  title : String
  sheetId : Int
  deriving DecidableEq

/-- HTTP outcome of the `deleteSheet` handler: the 404 reply or the success
reply. -/
inductive DeleteSheetResponse where
  | notFound (message : String)
  | deleted (message : String)
  deriving DecidableEq

/-- Observable effect of one `deleteSheet` request: the HTTP response and
the list of sheet ids sent to the provider in `deleteSheet` batchUpdate
requests. -/
structure DeleteSheetOutcome where
  response : DeleteSheetResponse
  batchUpdateRequests : List Int
  deriving DecidableEq

/-- Handler `deleteSheet`: fetches the spreadsheet metadata (modelled as its
list of sheet properties), looks for a sheet whose title equals `sheetName`
exactly, replies 404 `"Sheet not found"` without any provider delete call
when there is none, and otherwise sends one `deleteSheet` batchUpdate
request carrying that sheet id. -/
def deleteSheet (sheetsMeta : List SheetProperties) (sheetName : String) :
    DeleteSheetOutcome :=
  match sheetsMeta.find? (fun s => s.title == sheetName) with
  | none => { response := .notFound "Sheet not found", batchUpdateRequests := [] }
  | some sheet =>
      { response := .deleted ("Sheet " ++ sheetName ++ " deleted successfully.")
        batchUpdateRequests := [sheet.sheetId] }

/-- Replacing, in a list, every user sharing the found user's `_id` by a
document `w` that still satisfies the search predicate makes `w` the first
match of that predicate. -/
theorem find_replace_of_find (l : List User) (p : User → Bool) (u w : User)
    (hf : l.find? p = some u) (hw : p w = true) :
    (l.map (fun v => if v.id == u.id then w else v)).find? p = some w := by
  induction l with
  | nil => simp at hf
  | cons h t ih =>
    cases hp : p h with
    | true =>
        rw [List.find?_cons_of_pos _ hp] at hf
        obtain rfl : h = u := Option.some.inj hf
        simp only [List.map_cons]
        rw [if_pos (by simp)]
        exact List.find?_cons_of_pos _ hw
    | false =>
        rw [List.find?_cons_of_neg _ (by simp [hp])] at hf
        simp only [List.map_cons]
        by_cases hid : (h.id == u.id) = true
        · rw [if_pos hid]
          exact List.find?_cons_of_pos _ hw
        · rw [if_neg hid]
          rw [List.find?_cons_of_neg _ (by simp [hp])]
          exact ih hf


/-- Replacing, in a list of users with pairwise distinct ids, the occurrence
of a member `u` by a document with the same `googleId` leaves the list of
stored `googleId` values unchanged. -/
theorem map_replace_map_googleId (l : List User) (u w : User) (hmem : u ∈ l)
    (hnodup : (l.map User.id).Nodup) (hgid : w.googleId = u.googleId) :
    (l.map (fun v => if v.id == u.id then w else v)).map User.googleId =
      l.map User.googleId := by
  induction l with
  | nil => simp
  | cons h t ih =>
    rw [List.map_cons, List.nodup_cons] at hnodup
    rcases List.mem_cons.mp hmem with rfl | hmem2
    · simp only [List.map_cons]
      congr 1
      · rw [if_pos (by simp), hgid]
      · rw [List.map_map]
        apply List.map_congr_left
        intro v hv
        have hne : v.id ≠ u.id := by
          intro hcontra
          exact hnodup.1 (hcontra ▸ List.mem_map_of_mem User.id hv)
        simp [Function.comp, hne]
    · have hne : h.id ≠ u.id := by
        intro hcontra
        exact hnodup.1 (hcontra ▸ List.mem_map_of_mem User.id hmem2)
      simp only [List.map_cons]
      congr 1
      · rw [if_neg (by simp [hne])]
      · exact ih hmem2 hnodup.2

/-- Saving a document whose `_id` is already present replaces the stored
documents carrying that `_id`. -/
theorem saveUser_of_mem (db : DB) (w v : User) (hv : v ∈ db) (hid : v.id = w.id) :
    saveUser db w = db.map (fun x => if x.id == w.id then w else x) := by
  have hany : db.any (fun x => x.id == w.id) = true :=
    List.any_eq_true.mpr ⟨v, hv, by simp [hid]⟩
  unfold saveUser
  rw [if_pos hany]

/-- Every member of the collection after a `save` is either an originally
stored document or the saved one. -/
theorem mem_saveUser (db : DB) (w x : User) (hx : x ∈ saveUser db w) :
    x ∈ db ∨ x = w := by
  unfold saveUser at hx
  by_cases hany : db.any (fun v => v.id == w.id) = true
  · rw [if_pos hany] at hx
    obtain ⟨v, hv, hvx⟩ := List.mem_map.mp hx
    by_cases hid : (v.id == w.id) = true
    · rw [if_pos hid] at hvx
      right
      exact hvx.symm
    · rw [if_neg hid] at hvx
      left
      exact hvx ▸ hv
  · rw [if_neg hany] at hx
    rcases List.mem_append.mp hx with h1 | h1
    · left
      exact h1
    · right
      simpa using h1

/-- Concrete stored user whose access token expired at time 100. -/
def c1User : User :=
  { id := 1, googleId := "g1", email := "a@x.com", name := "A", picture := "p",
    accessToken := "staleA", refreshToken := some "R1", tokenExpiry := some 100 }

/-- C1 (amended): for every stored user found by `setUserCredentials`, the
credentials installed on the shared client are exactly the stored
`accessToken` and `refreshToken` with no `expiry_date`; consequently, at
every time `now`, the outbound spreadsheet API call uses the stored access
token as-is and no token refresh is attempted, regardless of `tokenExpiry`. -/
theorem setUserCredentials_no_refresh (db : DB) (userId : Nat) (user : User) (now : Int)
    (h : findById db userId = some user) :
    setUserCredentials db userId =
      .ok ({ access_token := some user.accessToken,
             refresh_token := user.refreshToken,
             expiry_date := none }, user) ∧
    clientRequestAction
        { access_token := some user.accessToken,
          refresh_token := user.refreshToken,
          expiry_date := none } now =
      (some user.accessToken, false) := by
  refine ⟨?_, rfl⟩
  unfold setUserCredentials
  rw [h]

/-- Witness for the C1 amended theorem at a concrete store and time. -/
theorem setUserCredentials_no_refresh_witness :
    setUserCredentials [c1User] 1 =
      .ok ({ access_token := some c1User.accessToken,
             refresh_token := c1User.refreshToken,
             expiry_date := none }, c1User) ∧
    clientRequestAction
        { access_token := some c1User.accessToken,
          refresh_token := c1User.refreshToken,
          expiry_date := none } 200 =
      (some c1User.accessToken, false) :=
  setUserCredentials_no_refresh [c1User] 1 c1User 200 (by decide)

/-- C1 counterexample: with the stored token expired at 100 and the clock at
200, `setUserCredentials` installs the stale token with no expiry date, and
the outbound API call is made with that expired token while the refresh
flag stays `false` - refuting that a refresh is attempted before the
external call and that the API is never called with an expired token. -/
theorem setUserCredentials_expired_counterexample :
    c1User.tokenExpiry = some 100 ∧ (100 : Int) < 200 ∧
    setUserCredentials [c1User] 1 =
      .ok ({ access_token := some "staleA", refresh_token := some "R1",
             expiry_date := none }, c1User) ∧
    clientRequestAction
        { access_token := some "staleA",
          refresh_token := some "R1", expiry_date := none } 200 =
      (some "staleA", false) :=
  ⟨rfl, by decide, rfl, rfl⟩

/-- Concrete stored user for the refresh-persistence scenario. -/
def c4User : User :=
  { id := 1, googleId := "g1", email := "a@x.com", name := "A", picture := "p",
    accessToken := "A1", refreshToken := some "R1", tokenExpiry := some 100 }

/-- C4 (code-bug evaluation): a refresh call whose token matches the stored
record and which the provider accepts returns the new tokens and mutates
the in-memory document, yet the persistent collection is unchanged: the
handler never calls `user.save()`, so the stored `accessToken` keeps the
old value `"A1"` instead of `"A2"`, contradicting the handler's own comment
that it updates the access token and expiration time in the DB. -/
theorem refreshToken_does_not_persist :
    refreshToken (fun _ => Except.ok { access_token := "A2", expiry_date := some 200 })
        [c4User] (some "R1") =
      { response := .ok "A2" (some 200),
        db := [c4User],
        providerCalled := true,
        inMemoryDoc := some { c4User with accessToken := "A2", tokenExpiry := some 200 } } ∧
    c4User.accessToken = "A1" ∧
    (refreshToken (fun _ => Except.ok { access_token := "A2", expiry_date := some 200 })
        [c4User] (some "R1")).db.map User.accessToken = ["A1"] :=
  ⟨rfl, rfl, rfl⟩

/-- C5: a refresh request whose body lacks the `refreshToken` field yields
the 400 reply (the spec taxonomy's `ValidationError`) with the provider
never called, the collection untouched and no document fetched - for every
store and every provider. -/
theorem refreshToken_missing_field (providerRefresh : String → Except String Credentials)
    (db : DB) :
    refreshToken providerRefresh db none =
      { response := .badRequest "Refresh token missing.",
        db := db,
        providerCalled := false,
        inMemoryDoc := none } := rfl

/-- C6: when the external provider rejects the supplied refresh token, the
handler produces the `ExternalAuthError` outcome via `next(error)` and the
stored collection is returned unmodified, with no document mutation. -/
theorem refreshToken_provider_rejected (e : String) (db : DB) (rt : String)
    (hne : rt ≠ "") :
    refreshToken (fun _ => Except.error e) db (some rt) =
      { response := .externalAuthError e,
        db := db,
        providerCalled := true,
        inMemoryDoc := none } := by
  have ht : truthyStr (some rt) = true := by simp [truthyStr, hne]
  unfold refreshToken
  rw [ht]
  rfl

/-- Concrete stored user for the rejected-refresh scenario. -/
def c6User : User :=
  { id := 2, googleId := "g2", email := "b@x.com", name := "B", picture := "q",
    accessToken := "B1", refreshToken := some "R9", tokenExpiry := some 50 }

/-- Witness for C6: a rejected `refresh("R9")` against a store holding the
matching record leaves that record unmodified. -/
theorem refreshToken_provider_rejected_witness :
    refreshToken (fun _ => Except.error "invalid_grant") [c6User] (some "R9") =
      { response := .externalAuthError "invalid_grant",
        db := [c6User],
        providerCalled := true,
        inMemoryDoc := none } :=
  refreshToken_provider_rejected "invalid_grant" [c6User] "R9" (by decide)

/-- C8: when the provider accepts the refresh, the reply always carries the
new access token and expiry date, for every store - in particular also when
no stored document matches the supplied refresh token. -/
theorem refreshToken_returns_tokens_regardless (db : DB) (rt : String)
    (credentials : Credentials) (hne : rt ≠ "") :
    (refreshToken (fun _ => Except.ok credentials) db (some rt)).response =
      .ok credentials.access_token credentials.expiry_date := by
  have ht : truthyStr (some rt) = true := by simp [truthyStr, hne]
  unfold refreshToken
  rw [ht]
  rfl

/-- Witness for C8 on an empty store: an orphaned refresh still returns the
new tokens. -/
theorem refreshToken_returns_tokens_regardless_witness :
    (refreshToken (fun _ => Except.ok { access_token := "N1", expiry_date := some 300 })
        ([] : DB) (some "orphan")).response =
      .ok "N1" (some 300) :=
  refreshToken_returns_tokens_regardless []
    "orphan" { access_token := "N1", expiry_date := some 300 } (by decide)

/-- C9: the `sortRange` request built by `sortSheetRange` always carries a
sort order that is exactly `"ASCENDING"` or `"DESCENDING"`; every order
value other than the exact string `"DESCENDING"`, including an absent
field, is normalized to `"ASCENDING"`. -/
theorem sortSheetRange_normalizes_order (sheetName : String) (colIdx : Int)
    (order : Option String) :
    ((sortSheetRange sheetName colIdx order).sortSpecs =
        [{ dimensionIndex := colIdx, sortOrder := "DESCENDING" }] ∨
      (sortSheetRange sheetName colIdx order).sortSpecs =
        [{ dimensionIndex := colIdx, sortOrder := "ASCENDING" }]) ∧
    (order ≠ some "DESCENDING" →
      (sortSheetRange sheetName colIdx order).sortSpecs =
        [{ dimensionIndex := colIdx, sortOrder := "ASCENDING" }]) ∧
    (sortSheetRange sheetName colIdx none).sortSpecs =
      [{ dimensionIndex := colIdx, sortOrder := "ASCENDING" }] := by
  by_cases h : order = some "DESCENDING" <;> simp [sortSheetRange, h]

/-- Witness for C9: a lower-case `"descending"` is not the exact string and
is therefore normalized to `"ASCENDING"`. -/
theorem sortSheetRange_normalizes_order_witness :
    (sortSheetRange "Sheet1" 2 (some "descending")).sortSpecs =
      [{ dimensionIndex := 2, sortOrder := "ASCENDING" }] :=
  (sortSheetRange_normalizes_order "Sheet1" 2 (some "descending")).2.1 (by decide)

/-- C10: when no sheet of the spreadsheet bears exactly the requested title,
`deleteSheet` replies 404 `"Sheet not found"` and sends no delete request
to the provider. -/
theorem deleteSheet_not_found (sheetsMeta : List SheetProperties) (sheetName : String)
    (h : ∀ s ∈ sheetsMeta, s.title ≠ sheetName) :
    deleteSheet sheetsMeta sheetName =
      { response := .notFound "Sheet not found", batchUpdateRequests := [] } := by
  have hfind : sheetsMeta.find? (fun s => s.title == sheetName) = none := by
    rw [List.find?_eq_none]
    intro s hs
    simp [h s hs]
  unfold deleteSheet
  rw [hfind]

/-- Witness for C10 on a spreadsheet holding sheets titled `"Data"` and
`"Summary"` and a request naming `"Missing"`. -/
theorem deleteSheet_not_found_witness :
    deleteSheet [{ title := "Data", sheetId := 7 }, { title := "Summary", sheetId := 9 }]
        "Missing" =
      { response := .notFound "Sheet not found", batchUpdateRequests := [] } :=
  deleteSheet_not_found
    [{ title := "Data", sheetId := 7 }, { title := "Summary", sheetId := 9 }]
    "Missing" (by decide)

/-- Update branch of `googleCallback`: when a document with the requested
`googleId` is already stored, the collection is rewritten by replacing the
documents carrying that document's `_id` with the token-updated document. -/
theorem googleCallback_found (db : DB) (freshId : Nat) (tokens : Tokens) (data : Profile)
    (u : User) (hfind : findOneByGoogleId db data.id = some u) :
    googleCallback db freshId tokens data =
      db.map (fun v => if v.id == u.id then
        { u with
          accessToken := tokens.access_token,
          refreshToken :=
            if truthyStr tokens.refresh_token then tokens.refresh_token else u.refreshToken,
          tokenExpiry := if truthyInt tokens.expiry_date then tokens.expiry_date else none }
        else v) := by
  have hmem : u ∈ db := List.mem_of_find?_eq_some hfind
  unfold googleCallback
  rw [hfind]
  exact saveUser_of_mem db _ u hmem rfl

/-- C2: when a repeat `googleCallback` for an already-stored `googleId`
arrives with the provider omitting the refresh token, the stored document
for that `googleId` still carries its previous non-null refresh token. -/
theorem googleCallback_keeps_refreshToken (db : DB) (freshId : Nat) (tokens : Tokens)
    (data : Profile) (u : User) (r : String)
    (hfind : findOneByGoogleId db data.id = some u)
    (hprev : u.refreshToken = some r)
    (homit : tokens.refresh_token = none) :
    ∃ u2, findOneByGoogleId (googleCallback db freshId tokens data) data.id = some u2 ∧
      u2.refreshToken = some r := by
  have hfind2 : db.find? (fun v => v.googleId == data.id) = some u := hfind
  have hp := List.find?_some hfind2
  rw [googleCallback_found db freshId tokens data u hfind]
  refine ⟨_, find_replace_of_find db _ u _ hfind (by simpa using hp), ?_⟩
  show (if truthyStr tokens.refresh_token then tokens.refresh_token else u.refreshToken) = some r
  rw [homit]
  exact hprev

/-- Concrete stored user for the refresh-token-preservation scenario. -/
def c2User : User :=
  { id := 5, googleId := "g5", email := "c@x.com", name := "C", picture := "p5",
    accessToken := "A1", refreshToken := some "R1", tokenExpiry := some 100 }

/-- Repeat-login token payload with the refresh token omitted. -/
def c2Tokens : Tokens :=
  { access_token := "A2", refresh_token := none, expiry_date := some 200 }

/-- Repeat-login profile for the stored `googleId`. -/
def c2Profile : Profile :=
  { id := "g5", email := "c@x.com", name := "C", picture := "p5" }

/-- Witness for C2 at the concrete repeat login omitting the refresh token. -/
theorem googleCallback_keeps_refreshToken_witness :
    ∃ u2, findOneByGoogleId (googleCallback [c2User] 6 c2Tokens c2Profile) c2Profile.id =
        some u2 ∧
      u2.refreshToken = some "R1" :=
  googleCallback_keeps_refreshToken [c2User] 6 c2Tokens c2Profile c2User "R1"
    (by decide) (by decide) (by decide)

/-- C3 (amended): a second successful `googleCallback` for an existing
`googleId`, in a collection with mongo-unique `_id` values, keeps the
collection's length and its stored list of `googleId` values - no duplicate
record is created and `googleId` still identifies at most one record - and
the stored document for that `googleId` carries the new token fields while
its profile fields `email`, `name` and `picture` are unchanged. -/
theorem googleCallback_updates_existing (db : DB) (freshId : Nat) (tokens : Tokens)
    (data : Profile) (u : User)
    (hfind : findOneByGoogleId db data.id = some u)
    (hids : (db.map User.id).Nodup) :
    (googleCallback db freshId tokens data).length = db.length ∧
    (googleCallback db freshId tokens data).map User.googleId = db.map User.googleId ∧
    ∃ u2, findOneByGoogleId (googleCallback db freshId tokens data) data.id = some u2 ∧
      u2.accessToken = tokens.access_token ∧
      u2.tokenExpiry = (if truthyInt tokens.expiry_date then tokens.expiry_date else none) ∧
      u2.email = u.email ∧ u2.name = u.name ∧ u2.picture = u.picture ∧
      u2.googleId = u.googleId ∧ u2.id = u.id := by
  have hmem : u ∈ db := List.mem_of_find?_eq_some hfind
  have hfind2 : db.find? (fun v => v.googleId == data.id) = some u := hfind
  have hp := List.find?_some hfind2
  rw [googleCallback_found db freshId tokens data u hfind]
  refine ⟨by simp, map_replace_map_googleId db u _ hmem hids rfl, ?_⟩
  exact ⟨_, find_replace_of_find db _ u _ hfind (by simpa using hp),
    rfl, rfl, rfl, rfl, rfl, rfl, rfl⟩

/-- Concrete stored user for the repeat-login scenario. -/
def c3User : User :=
  { id := 3, googleId := "g1", email := "a@x.com", name := "A", picture := "p1",
    accessToken := "A1", refreshToken := some "R1", tokenExpiry := some 100 }

/-- Repeat-login token payload. -/
def c3Tokens : Tokens :=
  { access_token := "A2", refresh_token := none, expiry_date := some 200 }

/-- Repeat-login profile carrying a changed email, name and picture. -/
def c3Profile : Profile :=
  { id := "g1", email := "b@y.com", name := "B", picture := "p2" }

/-- C3 counterexample: a second `googleCallback` for the stored `googleId`
`"g1"` leaves the stored email, name and picture untouched even though the
provider sent different ones, while the token fields do change - refuting
the part of the claim saying profile fields are updated on repeat login. -/
theorem googleCallback_profile_not_updated :
    (googleCallback [c3User] 4 c3Tokens c3Profile).map User.email = ["a@x.com"] ∧
    c3Profile.email = "b@y.com" ∧
    (googleCallback [c3User] 4 c3Tokens c3Profile).map User.name = ["A"] ∧
    c3Profile.name = "B" ∧
    (googleCallback [c3User] 4 c3Tokens c3Profile).map User.picture = ["p1"] ∧
    c3Profile.picture = "p2" ∧
    (googleCallback [c3User] 4 c3Tokens c3Profile).map User.accessToken = ["A2"] :=
  ⟨rfl, rfl, rfl, rfl, rfl, rfl, rfl⟩

/-- Witness for the C3 amended theorem at the concrete repeat login. -/
theorem googleCallback_updates_existing_witness :
    (googleCallback [c3User] 4 c3Tokens c3Profile).length = ([c3User] : DB).length ∧
    (googleCallback [c3User] 4 c3Tokens c3Profile).map User.googleId =
      ([c3User] : DB).map User.googleId ∧
    ∃ u2, findOneByGoogleId (googleCallback [c3User] 4 c3Tokens c3Profile) c3Profile.id =
        some u2 ∧
      u2.accessToken = c3Tokens.access_token ∧
      u2.tokenExpiry =
        (if truthyInt c3Tokens.expiry_date then c3Tokens.expiry_date else none) ∧
      u2.email = c3User.email ∧ u2.name = c3User.name ∧ u2.picture = c3User.picture ∧
      u2.googleId = c3User.googleId ∧ u2.id = c3User.id :=
  googleCallback_updates_existing [c3User] 4 c3Tokens c3Profile c3User
    (by decide) (by decide)

/-- Every document present after a `save` either is one of the previously
stored documents (so both token fields are the old ones) or is the saved
document itself (so both token fields are the given new values). -/
theorem pair_from_saveUser (db : DB) (w u2 : User) (hu2 : u2 ∈ saveUser db w)
    (a : String) (t : Option Int) (hwa : w.accessToken = a) (hwt : w.tokenExpiry = t) :
    (∃ u ∈ db, u2.accessToken = u.accessToken ∧ u2.tokenExpiry = u.tokenExpiry) ∨
    (u2.accessToken = a ∧ u2.tokenExpiry = t) := by
  rcases mem_saveUser db w u2 hu2 with h1 | h1
  · exact Or.inl ⟨u2, h1, rfl, rfl⟩
  · subst h1
    exact Or.inr ⟨hwa, hwt⟩

/-- C7: access token and expiry move together. Every document stored after a
`googleCallback` either keeps the access-token/expiry pair of a previously
stored document or carries exactly the new pair derived from the provider
tokens; and a `refreshToken` request never changes the persistent
collection at all (its provider-accepted path assigns both fields together,
but only on the in-memory document). -/
theorem tokens_updated_together (db : DB) (freshId : Nat) (tokens : Tokens) (data : Profile)
    (providerRefresh : String → Except String Credentials) (body : Option String) :
    (∀ u2 ∈ googleCallback db freshId tokens data,
        (∃ u ∈ db, u2.accessToken = u.accessToken ∧ u2.tokenExpiry = u.tokenExpiry) ∨
        (u2.accessToken = tokens.access_token ∧
          u2.tokenExpiry = (if truthyInt tokens.expiry_date then tokens.expiry_date else none))) ∧
    (refreshToken providerRefresh db body).db = db := by
  constructor
  · intro u2 hu2
    unfold googleCallback at hu2
    split at hu2
    · exact pair_from_saveUser db _ u2 hu2 _ _ rfl rfl
    · exact pair_from_saveUser db _ u2 hu2 _ _ rfl rfl
  · unfold refreshToken
    by_cases hb : (!truthyStr body) = true
    · rw [if_pos hb]
    · rw [if_neg hb]
      cases providerRefresh (body.getD "") <;> rfl

/-- Concrete stored user for the joint-update scenario. -/
def c7User : User :=
  { id := 7, googleId := "g7", email := "d@x.com", name := "D", picture := "p7",
    accessToken := "A1", refreshToken := some "R1", tokenExpiry := some 100 }

/-- Repeat-login token payload carrying a new token pair. -/
def c7Tokens : Tokens :=
  { access_token := "A2", refresh_token := some "R2", expiry_date := some 200 }

/-- Repeat-login profile for the stored `googleId`. -/
def c7Profile : Profile :=
  { id := "g7", email := "d@x.com", name := "D", picture := "p7" }

/-- Stored document after the concrete repeat login. -/
def c7Updated : User :=
  { id := 7, googleId := "g7", email := "d@x.com", name := "D", picture := "p7",
    accessToken := "A2", refreshToken := some "R2", tokenExpiry := some 200 }

/-- Witness for C7 at a concrete repeat login and a concrete refresh call. -/
theorem tokens_updated_together_witness :
    ((∃ u ∈ ([c7User] : DB), c7Updated.accessToken = u.accessToken ∧
        c7Updated.tokenExpiry = u.tokenExpiry) ∨
      (c7Updated.accessToken = c7Tokens.access_token ∧
        c7Updated.tokenExpiry =
          (if truthyInt c7Tokens.expiry_date then c7Tokens.expiry_date else none))) ∧
    (refreshToken (fun _ => Except.error "down") [c7User] (some "R1")).db = [c7User] :=
  ⟨(tokens_updated_together [c7User] 8 c7Tokens c7Profile
      (fun _ => Except.error "down") (some "R1")).1 c7Updated (by decide),
    (tokens_updated_together [c7User] 8 c7Tokens c7Profile
      (fun _ => Except.error "down") (some "R1")).2⟩
